import Mathlib

/-!
Shallow embedding of the chat session / context-assembly engine of the
Perceptiom repository (src/chatbot.js together with the two revision
variants src/unnamed/part_000 and src/unnamed/part_001).

The React component state is modelled as an explicit record `AppState`
(one field per `useState` hook, with the `useState` defaults collected in
`initialAppState`).  Event handlers (`handleSendMessage`,
`createNewChatSession`, `selectChatSession`) and subscription callbacks
(the session-collection snapshot handler and the session-document
snapshot handler) become pure functions from a state (plus the
externally-determined outcomes of the adapter calls they make) to a new
state together with the ordered list of external effects they issue.
-/

/-- A chat message, as built in the source: `{ sender, text, timestamp }`.
`sender` is the string `"user"` or `"ai"`; the timestamp (an ISO string in
the source) is kept as an opaque string. -/
structure Message where
  sender : String
  text : String
  timestamp : String
deriving Repr, DecidableEq

/-- A chat session record, as stored in `chatSessions` state (demo mode) or
in a session document.  The `createdAt`/`updatedAt` dates are modelled as
abstract instants (`Nat`). -/
structure Session where
  id : String
  title : String
  messages : List Message
  createdAt : Nat
  updatedAt : Nat
deriving Repr, DecidableEq

/-- The component state: one field per `useState` hook of `App` in
src/chatbot.js.  `db` is `true` when the Firestore handle has been set
(non-null), `userId` is the authenticated uid when present. -/
structure AppState where
  messages : List Message
  input : String
  loading : Bool
  db : Bool
  userId : Option String
  chatSessions : List Session
  currentSessionId : Option String
  isReady : Bool
  isDemoMode : Bool
  perceptionDocContent : String
  luaExamplesContent : String
deriving Repr, DecidableEq

/-- The `useState` defaults of src/chatbot.js lines 11-23. -/
def initialAppState : AppState :=
  { messages := []
    input := ""
    loading := false
    db := false
    userId := none
    chatSessions := []
    currentSessionId := none
    isReady := false
    isDemoMode := false
    perceptionDocContent := ""
    luaExamplesContent := "" }

/-- One entry of the generation payload (`contents` array): a role together
with the text of its single part (`parts: [{ text }]` in the source). -/
structure ContentEntry where
  role : String
  text : String
deriving Repr, DecidableEq

/-- External effects issued by the handlers, in issue order.
`persistUser`/`persistAI` are the message-persistence writes (the
`updateDoc` calls in persistent mode, the session-record update via
`setChatSessions` in demo mode); `generate` is the generation HTTP call
with its payload; `createSession` marks an invocation of
`createNewChatSession()` from the session-snapshot handler; `createDoc` is
the `addDoc` store write inside `createNewChatSession`. -/
inductive Effect where
  | persistUser (messages : List Message)
  | generate (contents : List ContentEntry)
  | persistAI (messages : List Message)
  | createSession
  | createDoc
deriving Repr, DecidableEq

/-- Outcome of the generation call (the `fetch` of src/chatbot.js lines
314-327) as observed by the handler:
* `ok extracted` — HTTP 2xx with parsed JSON body; `extracted` is
  `result.candidates?.[0]?.content?.parts?.[0]?.text` (`none` when the
  optional-chain hits a missing field, e.g. empty candidate list);
* `httpError` — non-2xx response;
* `thrown` — the fetch / body read threw before the AI message was built
  (network failure, JSON parse error), landing in the outer `catch`. -/
inductive GenOutcome where
  | ok (extracted : Option String)
  | httpError
  | thrown
deriving Repr, DecidableEq

/-- The system instruction string of src/chatbot.js line 305. -/
def systemPrompt : String :=
  "You are an AI chatbot specialized in Lua 5.4 and the Perception.cx API. You MUST strictly adhere to the provided Perception.cx API documentation and Lua 5.4 syntax, you can also make an external/custom lua library based on what the user wants. Only provide code examples and explanations relevant to these two contexts. Do NOT provide information or code outside of Lua 5.4 or the Perception.cx API. Your response should be a single, professional, and well-formatted message. Avoid conversational filler and get straight to the point. When providing code, use Lua syntax highlighting within markdown code blocks. For code examples, provide a clear, concise heading (e.g., \"## Generic Lua Watermark Example\") before the code block. Ensure the overall response is clean, easy to read, and follows a structure similar to the user's provided example image, with a brief introductory sentence followed by the code block and its heading. Use the provided Lua examples to learn and improve your responses, making them more accurate and relevant to the user's needs."

/-- The fixed model-role acknowledgement text of src/chatbot.js line 309. -/
def ackText : String :=
  "Understood. I will strictly adhere to Lua 5.4 and the Perception.cx API documentation and provided examples, providing only one professional response with proper formatting and no external library references but if a user wants to be able to make an external library like ffi/luajit bit HTTP and more you will make those for the user. I will ensure a concise introduction, clear code block headings, and proper Lua syntax highlighting."

/-- The default substitute AI text (src/chatbot.js line 320). -/
def defaultAiText : String := "Sorry, I couldn't get a response."

/-- The connectivity-error substitute AI text (src/chatbot.js line 326). -/
def httpErrorText : String :=
  "There was an error connecting to the AI. Please check the console."

/-- Mapping of one history message to a payload entry
(src/chatbot.js line 310). -/
def mapToEntry (msg : Message) : ContentEntry :=
  { role := if msg.sender == "user" then "user" else "model", text := msg.text }

/-- The text of the leading user-role context entry (src/chatbot.js
line 308): system prompt, reference documentation, example text. -/
def contextText (docContent examplesContent : String) : String :=
  systemPrompt ++ "\n\nPerception.cx API Documentation:\n" ++ docContent ++
    "\n\nLua Code Examples for Learning:\n" ++ examplesContent

/-- The `contents` payload of src/chatbot.js lines 307-311: synthetic
context exchange followed by the spread of the updated message history. -/
def buildContents (docContent examplesContent : String)
    (updatedMessages : List Message) : List ContentEntry :=
  { role := "user", text := contextText docContent examplesContent } ::
  { role := "model", text := ackText } ::
  updatedMessages.map mapToEntry

/-- Strip leading and trailing whitespace from a character list. -/
def trimChars (l : List Char) : List Char :=
  ((l.dropWhile Char.isWhitespace).reverse.dropWhile Char.isWhitespace).reverse

/-- Model of JavaScript `String.prototype.trim()` (used at src/chatbot.js
lines 273 and 275), computable by structural recursion. -/
def jsTrim (s : String) : String :=
  ⟨trimChars s.data⟩

/-- The early-return validation condition of src/chatbot.js line 273:
`!input.trim() || loading || !currentSessionId`. -/
def sendBlocked (s : AppState) : Bool :=
  jsTrim s.input == "" || s.loading || s.currentSessionId.isNone

/-- The user message built at src/chatbot.js line 275. -/
def userMessageOf (s : AppState) (now : Nat) : Message :=
  { sender := "user", text := jsTrim s.input, timestamp := toString now }

/-- The demo-mode session-record update of src/chatbot.js lines 283-285
and 335-337: replace the current session's messages and refresh
`updatedAt`. -/
def demoSessionsWith (sessions : List Session) (current : Option String)
    (msgs : List Message) (now : Nat) : List Session :=
  sessions.map fun sess =>
    if some sess.id == current then
      { sess with messages := msgs, updatedAt := now }
    else sess

/-- src/chatbot.js lines 275-298: optimistic append of the user message,
input clear, raising of the loading flag, and the user-message
persistence attempt (demo: in-memory session update; persistent with
`db`/`userId` set: `updateDoc`, whose failure is caught and only
logged). -/
def sendStart (s : AppState) (now : Nat) : AppState × List Effect :=
  let userMessage := userMessageOf s now
  let updatedMessages := s.messages ++ [userMessage]
  let s1 := { s with messages := updatedMessages, input := "", loading := true }
  if s.isDemoMode then
    ({ s1 with chatSessions :=
        demoSessionsWith s.chatSessions s.currentSessionId updatedMessages now },
     [Effect.persistUser updatedMessages])
  else if s.db && s.userId.isSome then
    (s1, [Effect.persistUser updatedMessages])
  else (s1, [])

/-- The substitute/extracted AI text for a completed (non-thrown)
generation call: src/chatbot.js lines 320-327.  The `||` fallback makes
an empty extracted string fall back to the default apology. -/
def aiTextOf : GenOutcome → String
  | GenOutcome.ok (some t) => if t == "" then defaultAiText else t
  | GenOutcome.ok none => defaultAiText
  | GenOutcome.httpError => httpErrorText
  | GenOutcome.thrown => defaultAiText

/-- src/chatbot.js lines 329-343: build the AI message, append it, persist
it (demo: session-record update computed from the render-time
`chatSessions` closure; persistent: `updateDoc`).  The `finally` clears
the loading flag. -/
def finishTurn (s s2 : AppState) (updatedMessages : List Message)
    (aiText : String) (now : Nat) (userEff : List Effect)
    (contents : List ContentEntry) : AppState × List Effect :=
  let aiMessage : Message := { sender := "ai", text := aiText, timestamp := toString now }
  let finalMessages := updatedMessages ++ [aiMessage]
  let s3 := { s2 with messages := finalMessages, loading := false }
  if s.isDemoMode then
    ({ s3 with chatSessions :=
        demoSessionsWith s.chatSessions s.currentSessionId finalMessages now },
     userEff ++ [Effect.generate contents, Effect.persistAI finalMessages])
  else if s.db && s.userId.isSome then
    (s3, userEff ++ [Effect.generate contents, Effect.persistAI finalMessages])
  else (s3, userEff ++ [Effect.generate contents])

/-- `handleSendMessage` of src/chatbot.js lines 271-349, as a function of
the state, the outcome of the user-message persistence attempt
(`userWriteFails` — caught and only logged at lines 295-297, so it does
not influence the rest of the turn), the generation outcome, and the
current instant.  A generation `thrown` outcome reaches the outer
`catch` (which only logs) and then the `finally`. -/
def handleSendMessage (s : AppState) (_userWriteFails : Bool)
    (gen : GenOutcome) (now : Nat) : AppState × List Effect :=
  if sendBlocked s then (s, [])
  else
    let (s1, userEff) := sendStart s now
    let updatedMessages := s1.messages
    let contents :=
      buildContents s.perceptionDocContent s.luaExamplesContent updatedMessages
    match gen with
    | GenOutcome.thrown =>
        ({ s1 with loading := false }, userEff ++ [Effect.generate contents])
    | g => finishTurn s s1 updatedMessages (aiTextOf g) now userEff contents

/-- `createNewChatSession` of src/chatbot.js lines 142-172.  `newId` models
the externally produced identifier (`crypto.randomUUID()` in demo mode,
the store-assigned document id in persistent mode); `createOk` is the
outcome of the `addDoc` store write (its failure is caught and logged,
leaving the selection untouched).  `setLoading(true)` at entry is undone
by `setLoading(false)` at exit on every path. -/
def createNewChatSession (s : AppState) (newId : String) (createOk : Bool)
    (now : Nat) : AppState × List Effect :=
  if s.isDemoMode then
    let newSession : Session :=
      { id := newId, title := "New Chat (Demo)", messages := [],
        createdAt := now, updatedAt := now }
    ({ s with chatSessions := newSession :: s.chatSessions
              currentSessionId := some newId
              messages := []
              loading := false }, [])
  else if s.db && s.userId.isSome then
    if createOk then
      ({ s with currentSessionId := some newId, messages := [], loading := false },
       [Effect.createDoc])
    else ({ s with loading := false }, [Effect.createDoc])
  else ({ s with loading := false }, [])

/-- `selectChatSession` of src/chatbot.js lines 175-184: set the current
session id; in demo mode additionally look the session up in the
in-memory list and, only when found, swap the displayed messages.  In
persistent mode nothing else happens here (the message subscription
effect reacts to the id change). -/
def selectChatSession (s : AppState) (sessionId : String) : AppState :=
  let s1 := { s with currentSessionId := some sessionId }
  if s.isDemoMode then
    match s.chatSessions.find? (fun sess => sess.id == sessionId) with
    | some sess => { s1 with messages := sess.messages }
    | none => s1
  else s1

/-- The Firestore session-collection snapshot callback of src/chatbot.js
lines 98-109.  `captured` is the `currentSessionId` closed over when the
subscription was established (the effect's dependency array at line 116
does not include `currentSessionId`, so the closure value is fixed for
the lifetime of the subscription).  A `Effect.createSession` effect
records an invocation of `createNewChatSession()`. -/
def onSessionsSnapshot (captured : Option String) (s : AppState)
    (snapshot : List Session) : AppState × List Effect :=
  let s1 := { s with chatSessions := snapshot }
  match captured, snapshot with
  | none, sess :: _ => ({ s1 with currentSessionId := some sess.id }, [])
  | _, _ =>
    if snapshot.isEmpty then (s1, [Effect.createSession])
    else (s1, [])

/-- Delivery of a sequence of session-collection snapshots to the same
subscription (same captured closure value), folding the state and
concatenating the issued effects. -/
def processSnapshots (captured : Option String) (s : AppState) :
    List (List Session) → AppState × List Effect
  | [] => (s, [])
  | snap :: rest =>
      let (s1, e1) := onSessionsSnapshot captured s snap
      let (s2, e2) := processSnapshots captured s1 rest
      (s2, e1 ++ e2)

/-- The demo-mode branch of the session-management effect of
src/chatbot.js lines 87-91: at readiness, when there are no sessions,
create one.  (`chatSessions` is not in the dependency array, so this body
runs only when readiness/mode/db/user change.) -/
def sessionsEffectDemo (s : AppState) (newId : String) (now : Nat) :
    AppState × List Effect :=
  if s.chatSessions.isEmpty then createNewChatSession s newId true now
  else (s, [])

/-- A Firestore field value, as refined as the message-subscription
handler needs: either an array of messages, or any non-array value
(string, number, map, null, ...) abstracted by its printed form. -/
inductive FireValue where
  | arr (msgs : List Message)
  | prim (v : String)
deriving Repr, DecidableEq

/-- The data of a session document as read by the message subscription:
just its `messages` field (`none` when the field is missing). -/
structure SessionDoc where
  messages : Option FireValue
deriving Repr, DecidableEq

/-- The session-document snapshot callback of src/chatbot.js lines
126-132: when the document exists, display `data.messages` only if
`Array.isArray(data.messages)`, otherwise `[]`; when the document is
absent, display `[]`.  `docSnap = none` models `!docSnap.exists()`. -/
def onMessagesSnapshot (s : AppState) (docSnap : Option SessionDoc) : AppState :=
  match docSnap with
  | some data =>
      { s with messages :=
          match data.messages with
          | some (FireValue.arr l) => l
          | _ => [] }
  | none => { s with messages := [] }

/-- The observed shape of the `__firebase_config` global at initialization
(src/chatbot.js lines 33-47): absent/falsy, present but failing
`JSON.parse` (the outer catch of lines 76-80), or parsed to an object
whose `projectId` is modelled by a string (`""` standing for a
missing/falsy project identifier). -/
inductive ConfigState where
  | absent
  | malformed
  | parsed (projectId : String)
deriving Repr, DecidableEq

/-- The outcome of the first `onAuthStateChanged` callback
(src/chatbot.js lines 57-73): a user already exists, or the sign-in
attempt (custom token or anonymous) succeeds, or it throws. -/
inductive AuthOutcome where
  | existingUser (uid : String)
  | signInOk
  | signInThrows
deriving Repr, DecidableEq

/-- The mode/readiness/handles outcome of the initialization effect. -/
structure InitResult where
  isDemoMode : Bool
  isReady : Bool
  db : Bool
  userId : Option String
deriving Repr, DecidableEq

/-- The Firebase initialization effect of src/chatbot.js lines 31-81.
Absent/falsy config and a config without a truthy `projectId` fall to
demo mode before any handle is created; a `JSON.parse` failure lands in
the outer catch (also demo mode); otherwise the handles are set and the
mode follows the auth callback: an auth sign-in throw falls back to demo
mode.  Readiness is signalled in every one of these paths. -/
def initFirebase (cfg : ConfigState) (auth : AuthOutcome) : InitResult :=
  match cfg with
  | ConfigState.absent =>
      { isDemoMode := true, isReady := true, db := false, userId := none }
  | ConfigState.malformed =>
      { isDemoMode := true, isReady := true, db := false, userId := none }
  | ConfigState.parsed projectId =>
      if projectId == "" then
        { isDemoMode := true, isReady := true, db := false, userId := none }
      else
        match auth with
        | AuthOutcome.existingUser uid =>
            { isDemoMode := false, isReady := true, db := true, userId := some uid }
        | AuthOutcome.signInOk =>
            { isDemoMode := false, isReady := true, db := true, userId := none }
        | AuthOutcome.signInThrows =>
            { isDemoMode := true, isReady := true, db := true, userId := none }

namespace part000

/-- The base system prompt of src/unnamed/part_000 lines 402-405 (a
template literal whose continuation lines carry the source file's
indentation). -/
def baseSystemPrompt : String :=
  "You are an AI chatbot specialized in Lua 5.4 programming language and the Perception.cx API.\n            Your responses must strictly adhere to information available in Lua 5.4 documentation and the Perception.cx API.\n            Do not provide information outside of these two specific topics.\n            If you are asked a question that is outside your scope, please state politely that you cannot answer it as it is beyond your specialized knowledge."

/-- The combined context string of src/unnamed/part_000 line 412. -/
def fullContextForModel (perceptionDocContent : String) : String :=
  baseSystemPrompt ++ "\n\n--- Start Perception.cx Documentation Context ---\n" ++
    perceptionDocContent ++ "\n--- End Perception.cx Documentation Context ---"

/-- The payload construction of src/unnamed/part_000 lines 399-428 (inside
its `handleSendMessage`): when the prior history is empty, a single
user-role entry holding the full context and the query; otherwise the
bare mapped history (including the just-appended user message) with no
synthetic leading exchange. -/
def chatHistoryForModel (messages : List Message) (userMessage : Message)
    (perceptionDocContent : String) : List ContentEntry :=
  if messages.length == 0 then
    [{ role := "user",
       text := fullContextForModel perceptionDocContent ++ "\n\nUser Query: " ++
         userMessage.text }]
  else
    (messages ++ [userMessage]).map fun msg =>
      { role := if msg.sender == "user" then "user" else "model", text := msg.text }

end part000

/-- Concrete sample messages for concrete-input theorems. -/
def msgHello : Message := { sender := "user", text := "hello", timestamp := "t0" }

def msgReply : Message := { sender := "ai", text := "reply", timestamp := "t1" }

def msgNext : Message := { sender := "user", text := "next", timestamp := "t2" }

/-- A freshly created demo session. -/
def sessionS1 : Session :=
  { id := "s1", title := "New Chat (Demo)", messages := [], createdAt := 0, updatedAt := 0 }

/-- A demo-mode state about to send the message `"hello"`. -/
def demoTurnState : AppState :=
  { initialAppState with input := "hello"
                         isReady := true
                         isDemoMode := true
                         chatSessions := [sessionS1]
                         currentSessionId := some "s1" }

/-- A persistent-mode state right after initialization and sign-in. -/
def persistState : AppState :=
  { initialAppState with isReady := true, db := true, userId := some "u1" }

/-- A persistent-mode state currently displaying session `"a"` with two
messages on screen. -/
def stalePersistState : AppState :=
  { initialAppState with isReady := true
                         db := true
                         userId := some "u1"
                         currentSessionId := some "a"
                         messages := [msgHello, msgReply] }

/-- A populated demo session `"a"`. -/
def sessionA : Session :=
  { id := "a", title := "New Chat (Demo)", messages := [msgHello, msgReply],
    createdAt := 0, updatedAt := 0 }

/-- A demo-mode state with one populated session `"a"`. -/
def demoSelectState : AppState :=
  { initialAppState with isReady := true
                         isDemoMode := true
                         chatSessions := [sessionA]
                         currentSessionId := some "a"
                         messages := [msgHello, msgReply] }

/-- C3: for every application state, `sendMessage` (the `handleSendMessage`
handler) is a no-op — the state is unchanged and no persistence write,
generation call or other adapter effect is issued — whenever the trimmed
input is empty, or `loading` is true, or no current session exists. -/
theorem send_message_noop_when_blocked (s : AppState) (uwf : Bool)
    (gen : GenOutcome) (now : Nat)
    (h : jsTrim s.input = "" ∨ s.loading = true ∨ s.currentSessionId = none) :
    handleSendMessage s uwf gen now = (s, []) := by
  have hb : sendBlocked s = true := by
    rcases h with h | h | h <;> simp [sendBlocked, h]
  simp [handleSendMessage, hb]

/-- Witness for C3 at a concrete state with `loading = true`. -/
theorem send_message_noop_when_blocked_witness :
    handleSendMessage { initialAppState with loading := true } true
        GenOutcome.httpError 5 = ({ initialAppState with loading := true }, []) :=
  send_message_noop_when_blocked { initialAppState with loading := true } true
    GenOutcome.httpError 5 (Or.inr (Or.inl rfl))

/-- C10: in demo mode, `selectChatSession` with a session id matching no
session in the in-memory list still sets that id as current but leaves
the displayed message list unchanged. -/
theorem demo_select_unknown_id (s : AppState) (sessionId : String)
    (hd : s.isDemoMode = true)
    (hfind : ∀ sess ∈ s.chatSessions, sess.id ≠ sessionId) :
    (selectChatSession s sessionId).currentSessionId = some sessionId ∧
      (selectChatSession s sessionId).messages = s.messages := by
  have hnone : s.chatSessions.find? (fun sess => sess.id == sessionId) = none := by
    rw [List.find?_eq_none]
    intro x hx
    simpa using hfind x hx
  simp [selectChatSession, hd, hnone]

/-- Witness for C10: selecting the unknown id `"zzz"` in a demo state. -/
theorem demo_select_unknown_id_witness :
    (selectChatSession demoSelectState "zzz").currentSessionId = some "zzz" ∧
      (selectChatSession demoSelectState "zzz").messages = demoSelectState.messages :=
  demo_select_unknown_id demoSelectState "zzz" rfl (by decide)

/-- C9: in persistent mode, each session-document snapshot replaces the
displayed list by the document's `messages` field exactly when that field
is an array; an absent document, a missing `messages` field, or a
non-array value all yield the empty list, so a non-sequence value is
never propagated into the displayed log. -/
theorem messages_snapshot_array_guard (s : AppState) :
    (∀ (d : SessionDoc) (l : List Message), d.messages = some (FireValue.arr l) →
        (onMessagesSnapshot s (some d)).messages = l) ∧
    (∀ d : SessionDoc,
        (d.messages = none ∨ ∃ v, d.messages = some (FireValue.prim v)) →
        (onMessagesSnapshot s (some d)).messages = []) ∧
    (onMessagesSnapshot s none).messages = [] := by
  refine ⟨fun d l h => by simp [onMessagesSnapshot, h], fun d h => ?_,
    by simp [onMessagesSnapshot]⟩
  rcases h with h | ⟨v, h⟩ <;> simp [onMessagesSnapshot, h]

/-- Witness for C9: an array field is adopted, a numeric field is replaced
by the empty list. -/
theorem messages_snapshot_array_guard_witness :
    (onMessagesSnapshot initialAppState
        (some { messages := some (FireValue.arr [msgHello]) })).messages = [msgHello] ∧
    (onMessagesSnapshot initialAppState
        (some { messages := some (FireValue.prim "42") })).messages = [] :=
  ⟨(messages_snapshot_array_guard initialAppState).1 _ [msgHello] rfl,
   (messages_snapshot_array_guard initialAppState).2.1 _ (Or.inr ⟨"42", rfl⟩)⟩

/-- C8 counterexample: in persistent mode `selectChatSession` does not
clear the displayed message list — right after switching from session
`"a"` to session `"b"` (and before any snapshot for `"b"` arrives), the
state displays session `"b"` as current while still showing session
`"a"`'s messages, so the old messages are displayed under the newly
selected session, contrary to the claim. -/
theorem select_session_no_clear_counterexample :
    (selectChatSession stalePersistState "b").currentSessionId = some "b" ∧
      (selectChatSession stalePersistState "b").messages = [msgHello, msgReply] := by
  decide

/-- C8 (amended): `selectChatSession` never clears the displayed list.  In
demo mode it synchronously replaces the list with the stored messages of
the newly selected session when that session exists; in persistent mode
it changes only the current-session id and leaves the displayed list
untouched until the new session's first document snapshot replaces it. -/
theorem select_session_display_update (s : AppState) (sid : String) :
    (s.isDemoMode = true →
      ∀ sess, s.chatSessions.find? (fun x => x.id == sid) = some sess →
        (selectChatSession s sid).currentSessionId = some sid ∧
          (selectChatSession s sid).messages = sess.messages) ∧
    (s.isDemoMode = false →
      (selectChatSession s sid).currentSessionId = some sid ∧
        (selectChatSession s sid).messages = s.messages) := by
  constructor
  · intro hd sess hfind
    simp [selectChatSession, hd, hfind]
  · intro hd
    simp [selectChatSession, hd]

/-- Witness for C8 (amended): selecting the existing demo session `"a"`
swaps in its stored messages. -/
theorem select_session_display_update_witness :
    (selectChatSession demoSelectState "a").currentSessionId = some "a" ∧
      (selectChatSession demoSelectState "a").messages = sessionA.messages :=
  (select_session_display_update demoSelectState "a").1 rfl sessionA (by decide)

/-- C4 counterexample: delivering two consecutive empty snapshots to the
session-collection subscription issues two `createNewChatSession()`
invocations — the handler has no guard against duplicate auto-creation,
so repeated empty snapshots do trigger a second auto-creation, contrary
to the claim. -/
theorem repeated_empty_snapshots_counterexample :
    (processSnapshots none persistState [[], []]).2 =
      [Effect.createSession, Effect.createSession] := by decide

/-- Every empty session-collection snapshot triggers one
`createNewChatSession()` invocation: over a run of empty snapshots the
handler issues exactly one creation per snapshot. -/
theorem processSnapshots_all_empty (captured : Option String) :
    ∀ (snaps : List (List Session)) (s : AppState), (∀ x ∈ snaps, x = []) →
      (processSnapshots captured s snaps).2 =
        List.replicate snaps.length Effect.createSession
  | [], _, _ => by simp [processSnapshots]
  | snap :: rest, s, h => by
      have hs : snap = [] := h snap (by simp)
      subst hs
      have hr := processSnapshots_all_empty captured rest
        (onSessionsSnapshot captured s []).1
        (fun x hx => h x (List.mem_cons_of_mem _ hx))
      cases captured <;>
        simp [processSnapshots, onSessionsSnapshot, List.replicate_succ] at hr ⊢ <;>
        exact hr

/-- C4 (amended): an empty session collection does trigger automatic
session creation — in demo mode the readiness-triggered check creates
exactly one session when the list is empty, and in persistent mode the
snapshot handler issues one `createNewChatSession()` invocation per empty
snapshot delivered; since the handler has no dedup guard, repeated empty
snapshots trigger repeated creations (one each), not at most one
overall. -/
theorem empty_snapshot_triggers_creation (captured : Option String)
    (s : AppState) (snaps : List (List Session))
    (hempty : ∀ x ∈ snaps, x = []) :
    (processSnapshots captured s snaps).2 =
      List.replicate snaps.length Effect.createSession ∧
    ∀ (s2 : AppState) (newId : String) (now : Nat),
      s2.isDemoMode = true → s2.chatSessions = [] →
        (sessionsEffectDemo s2 newId now).1.chatSessions =
            [{ id := newId, title := "New Chat (Demo)", messages := [],
               createdAt := now, updatedAt := now }] ∧
          (sessionsEffectDemo s2 newId now).1.currentSessionId = some newId := by
  refine ⟨processSnapshots_all_empty captured snaps s hempty, ?_⟩
  intro s2 newId now hd hcs
  constructor <;> simp [sessionsEffectDemo, hcs, createNewChatSession, hd]

/-- Witness for C4 (amended): one empty snapshot yields one creation call,
and a demo bootstrap on an empty list creates exactly one session. -/
theorem empty_snapshot_triggers_creation_witness :
    (processSnapshots none persistState [[]]).2 =
      List.replicate 1 Effect.createSession ∧
    (sessionsEffectDemo { initialAppState with isReady := true, isDemoMode := true }
        "u-1" 7).1.chatSessions =
      [{ id := "u-1", title := "New Chat (Demo)", messages := [],
         createdAt := 7, updatedAt := 7 }] :=
  ⟨(empty_snapshot_triggers_creation none persistState [[]] (by decide)).1,
   ((empty_snapshot_triggers_creation none persistState [[]] (by decide)).2
      { initialAppState with isReady := true, isDemoMode := true } "u-1" 7
      rfl rfl).1⟩

/-- C5: initialization commits to demo mode (while still signalling
readiness) exactly when the remote configuration is absent, or it lacks
the required project identifier (the configuration is unparseable or its
`projectId` is missing/falsy), or the authentication step throws;
otherwise the run is persistent.  Moreover the chosen mode is the one all
subsequent session/message mutations consult: none of
`handleSendMessage`, `createNewChatSession`, `selectChatSession` ever
changes the `isDemoMode` flag. -/
theorem demo_mode_iff_init_failure :
    (∀ (cfg : ConfigState) (auth : AuthOutcome),
        ((initFirebase cfg auth).isDemoMode = true ↔
          cfg = ConfigState.absent ∨ cfg = ConfigState.malformed ∨
            cfg = ConfigState.parsed "" ∨ auth = AuthOutcome.signInThrows) ∧
        (initFirebase cfg auth).isReady = true) ∧
    (∀ (s : AppState) (uwf : Bool) (gen : GenOutcome) (now : Nat),
        (handleSendMessage s uwf gen now).1.isDemoMode = s.isDemoMode) ∧
    (∀ (s : AppState) (newId : String) (createOk : Bool) (now : Nat),
        (createNewChatSession s newId createOk now).1.isDemoMode = s.isDemoMode) ∧
    (∀ (s : AppState) (sid : String),
        (selectChatSession s sid).isDemoMode = s.isDemoMode) := by
  refine ⟨fun cfg auth => ?_, fun s uwf gen now => ?_, fun s newId createOk now => ?_,
    fun s sid => ?_⟩
  · cases cfg with
    | absent => simp [initFirebase]
    | malformed => simp [initFirebase]
    | parsed p =>
        by_cases hp : p = "" <;> cases auth <;> simp [initFirebase, hp]
  · by_cases hb : sendBlocked s = true <;>
      cases gen <;>
        by_cases hd : s.isDemoMode = true <;>
          by_cases hdu : (s.db && s.userId.isSome) = true <;>
            simp [handleSendMessage, sendStart, finishTurn, hb, hd, hdu,
              Bool.not_eq_true]
  · by_cases hd : s.isDemoMode = true <;>
      by_cases hdu : (s.db && s.userId.isSome) = true <;>
        cases createOk <;>
          simp [createNewChatSession, hd, hdu, Bool.not_eq_true]
  · by_cases hd : s.isDemoMode = true <;>
      cases hfind : s.chatSessions.find? (fun sess => sess.id == sid) <;>
        simp [selectChatSession, hd, hfind, Bool.not_eq_true]

/-- C7: on every `handleSendMessage` execution that passes validation, the
loading flag is raised at validation success (it is true in the state
produced by the optimistic-append/persist phase) and is false again in
the final state of every exit path of the turn — HTTP failure, malformed
response, and the thrown network/exception path alike — so a completed
invocation never leaves `loading` true. -/
theorem loading_flag_discipline (s : AppState) (now : Nat)
    (h : sendBlocked s = false) :
    (sendStart s now).1.loading = true ∧
      ∀ (uwf : Bool) (gen : GenOutcome),
        (handleSendMessage s uwf gen now).1.loading = false := by
  constructor
  · by_cases hd : s.isDemoMode = true <;>
      by_cases hdu : (s.db && s.userId.isSome) = true <;>
        simp [sendStart, hd, hdu, Bool.not_eq_true]
  · intro uwf gen
    by_cases hd : s.isDemoMode = true <;>
      by_cases hdu : (s.db && s.userId.isSome) = true <;>
        cases gen <;>
          simp [handleSendMessage, sendStart, finishTurn, h, hd, hdu,
            Bool.not_eq_true]

/-- Witness for C7 at a concrete valid demo-mode state. -/
theorem loading_flag_discipline_witness :
    (sendStart demoTurnState 0).1.loading = true ∧
      (handleSendMessage demoTurnState false GenOutcome.thrown 0).1.loading = false :=
  ⟨(loading_flag_discipline demoTurnState 0 (by decide)).1,
   (loading_flag_discipline demoTurnState 0 (by decide)).2 false GenOutcome.thrown⟩

/-- C6: within one validated turn on a session with a persistence target
(demo mode, or an initialized store with an identity), the effects are
issued in the order user-message persistence write, then generation call,
then (unless the call threw) AI-message persistence write; the AI write
never precedes the user write, and — since the effect trace does not
depend on the user-write outcome `uwf`, which the source catches and only
logs — the generation call is made even when the user-message
persistence attempt failed. -/
theorem turn_effect_order (s : AppState) (uwf : Bool) (gen : GenOutcome)
    (now : Nat) (h : sendBlocked s = false)
    (htarget : s.isDemoMode = true ∨ (s.db = true ∧ s.userId.isSome = true)) :
    (handleSendMessage s uwf gen now).2 =
      Effect.persistUser (s.messages ++ [userMessageOf s now]) ::
      Effect.generate (buildContents s.perceptionDocContent s.luaExamplesContent
        (s.messages ++ [userMessageOf s now])) ::
      (match gen with
       | GenOutcome.thrown => []
       | g => [Effect.persistAI (s.messages ++ [userMessageOf s now,
           { sender := "ai", text := aiTextOf g, timestamp := toString now }])]) := by
  rcases htarget with hd | ⟨hdb, hu⟩
  · cases gen <;> simp [handleSendMessage, sendStart, finishTurn, h, hd]
  · by_cases hd2 : s.isDemoMode = true <;>
      cases gen <;>
        simp [handleSendMessage, sendStart, finishTurn, h, hd2, hdb, hu,
          Bool.not_eq_true]

/-- Witness for C6 at a concrete valid demo-mode state with a successful
generation call. -/
theorem turn_effect_order_witness :
    (handleSendMessage demoTurnState true (GenOutcome.ok (some "lua")) 0).2 =
      Effect.persistUser (demoTurnState.messages ++ [userMessageOf demoTurnState 0]) ::
      Effect.generate (buildContents demoTurnState.perceptionDocContent
        demoTurnState.luaExamplesContent
        (demoTurnState.messages ++ [userMessageOf demoTurnState 0])) ::
      [Effect.persistAI (demoTurnState.messages ++ [userMessageOf demoTurnState 0,
        { sender := "ai", text := aiTextOf (GenOutcome.ok (some "lua")),
          timestamp := toString 0 }])] :=
  turn_effect_order demoTurnState true (GenOutcome.ok (some "lua")) 0 (by decide)
    (Or.inl rfl)

/-- C2 counterexample: a validated turn whose generation call throws (the
thrown network/exception path lands in the outer `catch`, which only
logs) appends no AI message at all — the displayed log of the completed
turn holds only the user message, contrary to the claim that every
failure path still appends exactly one substitute AI message. -/
theorem thrown_turn_no_ai_message_counterexample :
    sendBlocked demoTurnState = false ∧
    (handleSendMessage demoTurnState false GenOutcome.thrown 0).1.messages.map
      Message.sender = ["user"] ∧
    (handleSendMessage demoTurnState false GenOutcome.thrown 0).1.messages.filter
      (fun m => m.sender == "ai") = [] := by
  refine ⟨by decide, by decide, by decide⟩

/-- C2 (amended): of the generation-call failure paths, the HTTP non-2xx
path and the malformed/empty response-shape path (missing extraction or
empty extracted text) each append exactly one substitute AI message with
explanatory text, completing the turn; the thrown network/exception path
appends no AI message — the turn ends with only the user message (and the
loading flag cleared). -/
theorem generation_failure_substitute_message (s : AppState) (uwf : Bool)
    (now : Nat) (h : sendBlocked s = false) :
    (handleSendMessage s uwf GenOutcome.httpError now).1.messages =
        s.messages ++ [userMessageOf s now,
          { sender := "ai", text := httpErrorText, timestamp := toString now }] ∧
    (handleSendMessage s uwf (GenOutcome.ok none) now).1.messages =
        s.messages ++ [userMessageOf s now,
          { sender := "ai", text := defaultAiText, timestamp := toString now }] ∧
    (handleSendMessage s uwf (GenOutcome.ok (some "")) now).1.messages =
        s.messages ++ [userMessageOf s now,
          { sender := "ai", text := defaultAiText, timestamp := toString now }] ∧
    (handleSendMessage s uwf GenOutcome.thrown now).1.messages =
        s.messages ++ [userMessageOf s now] := by
  refine ⟨?_, ?_, ?_, ?_⟩ <;>
    by_cases hd : s.isDemoMode = true <;>
      by_cases hdu : (s.db && s.userId.isSome) = true <;>
        simp [handleSendMessage, sendStart, finishTurn, aiTextOf, h, hd, hdu,
          Bool.not_eq_true]

/-- Witness for C2 (amended) at a concrete valid demo-mode state with an
HTTP failure. -/
theorem generation_failure_substitute_message_witness :
    (handleSendMessage demoTurnState false GenOutcome.httpError 0).1.messages =
      demoTurnState.messages ++ [userMessageOf demoTurnState 0,
        { sender := "ai", text := httpErrorText, timestamp := toString 0 }] :=
  (generation_failure_substitute_message demoTurnState false 0 (by decide)).1

/-- C1 counterexample: the `handleSendMessage` of src/unnamed/part_000
(cited by the claim) does not build the claimed payload.  On a
first turn (empty prior history) its payload is a single user-role entry
— there is no second model-role acknowledgement entry at all — and on a
later turn its payload is just the mapped history: the first entry is the
first history message's text, not the system-instruction/reference
entry. -/
theorem first_turn_payload_counterexample :
    (part000.chatHistoryForModel [] msgHello "DOC").length = 1 ∧
    part000.chatHistoryForModel [msgHello, msgReply] msgNext "DOC" =
      [{ role := "user", text := "hello" }, { role := "model", text := "reply" },
       { role := "user", text := "next" }] := by
  refine ⟨rfl, by decide⟩

/-- C1 (amended): in the src/chatbot.js variant (and likewise the
src/unnamed/part_001 revisions), on every validated send-message turn,
regardless of the current history length (including zero), the
generation payload is: first a user-role entry whose text is the system
instructions concatenated with the reference-document text and example
text, second the fixed model-role acknowledgement entry, followed by
every message of the current history including the just-appended user
message, in order, mapped to role user/model by sender.  The part_000
revision instead injects the context only on the first turn, merged into
a single user entry with no acknowledgement entry. -/
theorem payload_synthetic_exchange_every_turn (s : AppState) (uwf : Bool)
    (gen : GenOutcome) (now : Nat) (h : sendBlocked s = false) :
    Effect.generate
        ({ role := "user",
           text := contextText s.perceptionDocContent s.luaExamplesContent } ::
         { role := "model", text := ackText } ::
         (s.messages ++ [userMessageOf s now]).map mapToEntry)
      ∈ (handleSendMessage s uwf gen now).2 := by
  by_cases hd : s.isDemoMode = true <;>
    by_cases hdu : (s.db && s.userId.isSome) = true <;>
      cases gen <;>
        simp [handleSendMessage, sendStart, finishTurn, buildContents, h, hd, hdu,
          Bool.not_eq_true]

/-- Witness for C1 (amended) at a concrete valid demo-mode state. -/
theorem payload_synthetic_exchange_every_turn_witness :
    Effect.generate
        ({ role := "user",
           text := contextText demoTurnState.perceptionDocContent
             demoTurnState.luaExamplesContent } ::
         { role := "model", text := ackText } ::
         (demoTurnState.messages ++ [userMessageOf demoTurnState 0]).map mapToEntry)
      ∈ (handleSendMessage demoTurnState true GenOutcome.httpError 0).2 :=
  payload_synthetic_exchange_every_turn demoTurnState true GenOutcome.httpError 0
    (by decide)
